import Mathlib

/-!
Shallow embedding of `src/SimCoupe/Win32/Audio.cpp` (SimCoupe's Win32
DirectSound audio backend).

The module keeps four pieces of mutable static state that matter to the
verified routines: the device-buffer handle `pdsb` (modelled as the flag
`deviceActive`), the circular buffer size `nSampleBufferSize` (`size`),
the producer offset `dwWriteOffset` (`writeOffset`) together with the
device buffer contents (`buf`, a list of bytes modelled as `Nat`), and the
frame-pacer fields `dwTimer` / `hTimer`.

The DirectSound device is asynchronous: every iteration of the write loop
queries it (`GetCurrentPosition`) and locks a region (`Lock`).  Those
interactions are modelled with an oracle value per loop iteration giving
the query outcome, the reported play cursor, and whether the lock call
succeeds.  `Lock(offset, space)` on success returns the requested region
as up to two spans: the first from `offset` to the physical end of the
buffer, the second wrapping to offset 0 — exactly the DirectSound
contract used by the code.

Observable actions (committing bytes, sleeping for back-off, killing or
starting the periodic timer, waiting on the frame event) are recorded in
an event trace so that temporal claims can be stated.
-/

/-- Bytes are modelled as `Nat` (the code moves them opaquely via `memcpy`). -/
abbrev Byte := Nat

/-- Outcome of one iteration's device interactions in `Audio::AddData`:
whether `GetCurrentPosition` succeeds, the play cursor it reports, and
whether the subsequent `Lock` call succeeds.  (The code also fetches the
device write cursor `dwWriteCursor` but never reads it, so it is omitted.) -/
structure IterOracle where
  cursorOk : Bool
  playCursor : Nat
  lockOk : Bool
  deriving Repr, DecidableEq

/-- Observable events of the audio module: a cursor-query failure
(line 140, which `break`s out of the loop), a commit of `n` bytes in an
iteration whose unclamped available space was `space` (lines 153-181), a
lock failure (line 154), the 2ms back-off `Sleep(2)` (line 190), killing
the periodic timer (line 122), attempting to start a periodic timer at a
given interval with success flag (line 125), and blocking on the frame
event `WaitForSingleObject` (line 130). -/
inductive Ev where
  | cursorFail
  | committed (space n : Nat)
  | lockFail (space : Nat)
  | slept
  | killTimer
  | startTimer (interval : Nat) (ok : Bool)
  | waited
  deriving Repr, DecidableEq

/-- The module's static state (`pdsb`, `nSampleBufferSize`, the device
buffer contents, `dwWriteOffset`, `dwTimer`, `hTimer`). -/
structure AudioState where
  deviceActive : Bool
  size : Nat
  buf : List Byte
  writeOffset : Nat
  dwTimer : Nat
  hTimer : Bool
  deriving Repr, DecidableEq

/-- Writing `data` into the buffer at byte offset `off` without wrapping:
the model of one `memcpy` into a locked span (the span starts at `off` and
the caller guarantees `off + data.length ≤ buf.length`).  The source guards
each `memcpy` with `if (dwLengthN)`; copying zero bytes is a no-op, and
`writeSpan buf off []` reduces to `buf`, so the guard needs no separate case. -/
def writeSpan (buf : List Byte) (off : Nat) (data : List Byte) : List Byte :=
  buf.take off ++ data ++ buf.drop (off + data.length)

/-- Lines 153-181 of `Audio::AddData`: lock `space` bytes at offset `off`
(DirectSound returns the region as span 1 of length `min space (size - off)`
at `off`, and span 2 of the remaining length at offset 0), clamp each span
length by the remaining input length `len` (the `min(dwLengthN, nLength_)`
assignments at lines 157 and 167), `memcpy` each span in order, advancing
the source pointer, and return the new buffer contents together with the
two committed span lengths `dwLength1` and `dwLength2`. -/
def lockAndFill (size : Nat) (buf : List Byte) (off space : Nat)
    (data : List Byte) (len : Int) : List Byte × Nat × Nat :=
  let span1 := min space (size - off)
  let span2 := space - span1
  let dwLength1 := min span1 len.toNat
  let buf1 := writeSpan buf off (data.take dwLength1)
  let data1 := data.drop dwLength1
  let lenA : Int := len - (dwLength1 : Int)
  let dwLength2 := min span2 lenA.toNat
  let buf2 := writeSpan buf1 0 (data1.take dwLength2)
  (buf2, dwLength1, dwLength2)

/-- The write loop of `Audio::AddData` (lines 135-191), one recursive call
per iteration of `while (nLength_ > 0)`.  Each iteration consumes one
oracle entry; `none` means the supplied oracle list ran out before the
loop terminated (the real loop would simply keep polling).  On success the
result is the returned boolean (the function falls through to `return
true` at line 193 from every loop exit), the final buffer contents, the
final `dwWriteOffset`, and the event trace in order. -/
def addDataLoop (size : Nat) : List IterOracle → List Byte → Int → List Byte → Nat →
    Option (Bool × List Byte × Nat × List Ev)
  | [], _, len, buf, off =>
    -- the loop guard `while (nLength_ > 0)` exits without touching the device
    if len ≤ 0 then some (true, buf, off, []) else none
  | o :: rest, data, len, buf, off =>
    if len ≤ 0 then some (true, buf, off, [])
    else if o.cursorOk = false then
      -- GetCurrentPosition failed: break out of the loop, return true
      some (true, buf, off, [Ev.cursorFail])
    else
      -- nSpace = (nSampleBufferSize + dwPlayCursor - dwWriteOffset) % nSampleBufferSize
      let space := (size + o.playCursor - off) % size
      -- nSpace = min(nSpace, nLength_)
      let spaceC := min space len.toNat
      if spaceC ≠ 0 then
        if o.lockOk = false then
          -- lock failed: this iteration commits nothing, then Sleep(2) and retry
          (addDataLoop size rest data len buf off).map
            (fun r => (r.1, r.2.1, r.2.2.1, Ev.lockFail space :: Ev.slept :: r.2.2.2))
        else
          let fr := lockAndFill size buf off spaceC data len
          let dwLength1 := fr.2.1
          let dwLength2 := fr.2.2
          let lenB : Int := len - (dwLength1 : Int) - (dwLength2 : Int)
          let off2 := (off + dwLength1 + dwLength2) % size
          let data2 := (data.drop dwLength1).drop dwLength2
          if lenB = 0 then
            -- if (!nLength_) break; then return true
            some (true, fr.1, off2, [Ev.committed space (dwLength1 + dwLength2)])
          else
            (addDataLoop size rest data2 lenB fr.1 off2).map
              (fun r => (r.1, r.2.1, r.2.2.1,
                Ev.committed space (dwLength1 + dwLength2) :: Ev.slept :: r.2.2.2))
      else
        -- no space available: Sleep(2) and retry
        (addDataLoop size rest data len buf off).map
          (fun r => (r.1, r.2.1, r.2.2.1, Ev.slept :: r.2.2.2))

/-- Lines 114-116: the pacer tick interval,
`dwTime = 1000 / (EMULATED_FRAMES_PER_SECOND * GetOption(speed) / 100)`
followed by `if (!dwTime) dwTime = 1`.  All in C `int` arithmetic; when the
divisor `fps * speed / 100` is zero the division is undefined behaviour
(a hardware fault on the target), modelled as `none`. -/
def pacerInterval (fps speed : Nat) : Option Nat :=
  let d := fps * speed / 100
  if d = 0 then none
  else
    let t := 1000 / d
    some (if t = 0 then 1 else t)

/-- `Audio::AddData` (lines 105-194).  When no device buffer is active
(lines 112-132): recompute the tick interval, and if it differs from
`dwTimer`, kill any running timer and call `timeSetEvent(dwTimer = dwTime, ...)`
— note the argument expression stores the new interval into `dwTimer`
whether or not the start succeeds (`startOk`); `hTimer` receives the new
handle, null on failure.  Then block on the frame event and return false.
When a device buffer is active, run the write loop and return its result
(always true).  `fps` is `EMULATED_FRAMES_PER_SECOND`, `speed` is
`GetOption(speed)`. -/
def addData (fps speed : Nat) (startOk : Bool) (oracles : List IterOracle)
    (data : List Byte) (len : Int) (st : AudioState) :
    Option (Bool × AudioState × List Ev) :=
  if st.deviceActive = false then
    match pacerInterval fps speed with
    | none => none
    | some dwTime =>
      if dwTime ≠ st.dwTimer then
        let evs := (if st.hTimer then [Ev.killTimer] else [])
          ++ [Ev.startTimer dwTime startOk, Ev.waited]
        some (false, { st with dwTimer := dwTime, hTimer := startOk }, evs)
      else
        some (false, st, [Ev.waited])
  else
    (addDataLoop st.size oracles data len st.buf st.writeOffset).map
      (fun r => (r.1, { st with buf := r.2.1, writeOffset := r.2.2.1 }, r.2.2.2))

/-- Device interactions of one `Audio::Silence` call: whether the
`Lock(..., DSBLOCK_ENTIREBUFFER)` call succeeds, and the play cursor
reported by the (unchecked) `GetCurrentPosition` query. -/
structure SilenceOracle where
  lockOk : Bool
  playCursor : Nat
  deriving Repr, DecidableEq

/-- `Audio::Silence` (lines 84-103): no-op without a device buffer;
otherwise lock the entire buffer (the device reports its full length
`size`) and, if the lock succeeded, `memset` it to zero and unlock; in
either case set `dwWriteOffset` to the current play cursor. -/
def silence (o : SilenceOracle) (st : AudioState) : AudioState :=
  if st.deviceActive = false then st
  else
    let st1 := if o.lockOk then { st with buf := List.replicate st.size 0 } else st
    { st1 with writeOffset := o.playCursor }

/-- Total bytes committed in an event trace (sum of the `committed` events). -/
def totalCommitted : List Ev → Nat
  | [] => 0
  | Ev.committed _ n :: rest => n + totalCommitted rest
  | _ :: rest => totalCommitted rest

/-- Specification-side description of a single conceptual contiguous
circular write: position `p` of the result holds `data[j]` when some
`j < data.length` satisfies `(off + j) % buf.length = p` (that `j` is
`(buf.length + p - off) % buf.length`, unique while
`data.length ≤ buf.length`), and is unchanged otherwise. -/
def circWrite (buf : List Byte) (off : Nat) (data : List Byte) : List Byte :=
  (List.range buf.length).map (fun p =>
    let j := (buf.length + p - off) % buf.length
    if j < data.length then data.getD j 0 else buf.getD p 0)

/-- One emulator frame's worth of input to `Audio::AddData`: the device
oracle for its loop iterations, the PCM bytes, and the length argument. -/
structure CallInput where
  oracles : List IterOracle
  data : List Byte
  len : Int

/-- A sequence of `Audio::AddData` calls, threading the module state; the
event traces of the calls are concatenated in order. -/
def addDataSeq (fps speed : Nat) (startOk : Bool) :
    List CallInput → AudioState → Option (AudioState × List Ev)
  | [], st => some (st, [])
  | c :: rest, st =>
    match addData fps speed startOk c.oracles c.data c.len st with
    | none => none
    | some (_, st1, evs1) =>
      match addDataSeq fps speed startOk rest st1 with
      | none => none
      | some (st2, evs2) => some (st2, evs1 ++ evs2)

/-- A concrete module state with an active 8-byte device buffer, used to
instantiate theorems with hypotheses at explicit inputs. -/
def exState : AudioState :=
  { deviceActive := true, size := 8, buf := List.replicate 8 0,
    writeOffset := 0, dwTimer := 0, hTimer := false }

/-- The state `exState` reaches after committing the three bytes 1,2,3 at
offset 0. -/
def exState2 : AudioState :=
  { deviceActive := true, size := 8, buf := [1, 2, 3, 0, 0, 0, 0, 0],
    writeOffset := 3, dwTimer := 0, hTimer := false }

/-- The concrete state of the spec's partial-space scenario:
a 1000-byte buffer with the write offset at 900. -/
def st7 : AudioState :=
  { deviceActive := true, size := 1000, buf := List.replicate 1000 0,
    writeOffset := 900, dwTimer := 0, hTimer := false }

/-- A concrete module state with no device buffer (timer/pacer mode). -/
def exPacerState : AudioState :=
  { deviceActive := false, size := 0, buf := [], writeOffset := 3,
    dwTimer := 0, hTimer := false }

/-- Every terminating run of the `AddData` write loop reports `true`: each
loop exit (length exhausted, or the `break` after a cursor-query failure)
falls through to `return true` at line 193. -/
theorem addDataLoop_isTrue (size : Nat) (oracles : List IterOracle) :
    ∀ (data : List Byte) (len : Int) (buf : List Byte) (off : Nat)
      (r : Bool) (buf' : List Byte) (off' : Nat) (evs : List Ev),
      addDataLoop size oracles data len buf off = some (r, buf', off', evs) → r = true := by
  induction oracles with
  | nil =>
    intro data len buf off r buf' off' evs h
    simp only [addDataLoop] at h
    split at h
    · cases h; rfl
    · cases h
  | cons o rest ih =>
    intro data len buf off r buf' off' evs h
    simp only [addDataLoop] at h
    split at h
    · cases h; rfl
    · split at h
      · cases h; rfl
      · split at h
        · split at h
          · rw [Option.map_eq_some'] at h
            obtain ⟨a, ha, h2⟩ := h
            cases h2
            exact ih _ _ _ _ _ _ _ _ ha
          · split at h
            · cases h; rfl
            · rw [Option.map_eq_some'] at h
              obtain ⟨a, ha, h2⟩ := h
              cases h2
              exact ih _ _ _ _ _ _ _ _ ha
        · rw [Option.map_eq_some'] at h
          obtain ⟨a, ha, h2⟩ := h
          cases h2
          exact ih _ _ _ _ _ _ _ _ ha

/-- The two committed span lengths of one lock-and-fill never exceed the
space that was requested from `Lock`. -/
theorem lockAndFill_committed_le (size : Nat) (buf : List Byte) (off space : Nat)
    (data : List Byte) (len : Int) :
    (lockAndFill size buf off space data len).2.1
      + (lockAndFill size buf off space data len).2.2 ≤ space := by
  unfold lockAndFill
  dsimp only
  omega

/-- Loop invariant of the `AddData` write loop: the final write offset is
the initial one advanced by the total committed bytes modulo the buffer
size, and each iteration commits at most the available space it computed. -/
theorem addDataLoop_invariant (size : Nat) (oracles : List IterOracle) :
    ∀ (data : List Byte) (len : Int) (buf : List Byte) (off : Nat)
      (r : Bool) (buf' : List Byte) (off' : Nat) (evs : List Ev),
      0 < size → off < size →
      addDataLoop size oracles data len buf off = some (r, buf', off', evs) →
      off' = (off + totalCommitted evs) % size
      ∧ ∀ sp n, Ev.committed sp n ∈ evs → n ≤ sp := by
  induction oracles with
  | nil =>
    intro data len buf off r buf' off' evs hsz hoff h
    simp only [addDataLoop] at h
    split at h
    · cases h
      exact ⟨by simp [totalCommitted, Nat.mod_eq_of_lt hoff], by simp⟩
    · cases h
  | cons o rest ih =>
    intro data len buf off r buf' off' evs hsz hoff h
    simp only [addDataLoop] at h
    split at h
    · cases h
      exact ⟨by simp [totalCommitted, Nat.mod_eq_of_lt hoff], by simp⟩
    · split at h
      · cases h
        exact ⟨by simp [totalCommitted, Nat.mod_eq_of_lt hoff], by simp [totalCommitted]⟩
      · split at h
        · split at h
          · -- lock failure iteration
            rw [Option.map_eq_some'] at h
            obtain ⟨a, ha, h2⟩ := h
            cases h2
            obtain ⟨ih1, ih2⟩ := ih _ _ _ _ _ _ _ _ hsz hoff ha
            refine ⟨by simpa [totalCommitted] using ih1, ?_⟩
            intro sp n hmem
            rcases List.mem_cons.mp hmem with hC | hmem
            · exact absurd hC (by simp)
            rcases List.mem_cons.mp hmem with hC | hmem
            · exact absurd hC (by simp)
            exact ih2 sp n hmem
          · split at h
            · -- all remaining bytes written this iteration
              cases h
              have hle := lockAndFill_committed_le size buf off
                ((size + o.playCursor - off) % size ⊓ len.toNat) data len
              constructor
              · simp only [totalCommitted]
                congr 1
                omega
              · intro sp n hmem
                simp only [List.mem_singleton, Ev.committed.injEq] at hmem
                omega
            · -- partial write this iteration, then sleep and retry
              rw [Option.map_eq_some'] at h
              obtain ⟨a, ha, h2⟩ := h
              cases h2
              have hle := lockAndFill_committed_le size buf off
                ((size + o.playCursor - off) % size ⊓ len.toNat) data len
              obtain ⟨ih1, ih2⟩ := ih _ _ _ _ _ _ _ _ hsz (Nat.mod_lt _ hsz) ha
              constructor
              · rw [ih1, Nat.mod_add_mod]
                simp only [totalCommitted, Nat.add_assoc]
              · intro sp n hmem
                rcases List.mem_cons.mp hmem with hC | hmem
                · simp only [Ev.committed.injEq] at hC
                  omega
                rcases List.mem_cons.mp hmem with hC | hmem
                · exact absurd hC (by simp)
                exact ih2 sp n hmem
        · -- no space: sleep and retry
          rw [Option.map_eq_some'] at h
          obtain ⟨a, ha, h2⟩ := h
          cases h2
          obtain ⟨ih1, ih2⟩ := ih _ _ _ _ _ _ _ _ hsz hoff ha
          refine ⟨by simpa [totalCommitted] using ih1, ?_⟩
          intro sp n hmem
          rcases List.mem_cons.mp hmem with hC | hmem
          · exact absurd hC (by simp)
          exact ih2 sp n hmem

/-- One `AddData` call in device mode satisfies the circular invariant. -/
theorem addData_circular_invariant (fps speed : Nat) (startOk : Bool)
    (oracles : List IterOracle) (data : List Byte) (len : Int) (st : AudioState)
    (r : Bool) (st' : AudioState) (evs : List Ev)
    (hdev : st.deviceActive = true) (hsz : 0 < st.size) (hoff : st.writeOffset < st.size)
    (h : addData fps speed startOk oracles data len st = some (r, st', evs)) :
    st'.writeOffset = (st.writeOffset + totalCommitted evs) % st.size
    ∧ ∀ sp n, Ev.committed sp n ∈ evs → n ≤ sp := by
  unfold addData at h
  rw [hdev] at h
  simp only [Bool.true_eq_false, if_false, Option.map_eq_some'] at h
  obtain ⟨a, ha, h2⟩ := h
  cases h2
  exact addDataLoop_invariant st.size oracles data len st.buf st.writeOffset _ _ _ _ hsz hoff ha

/-- An `AddData` call in device mode never deactivates the device and
never changes the buffer size. -/
theorem addData_active_state (fps speed : Nat) (startOk : Bool)
    (oracles : List IterOracle) (data : List Byte) (len : Int) (st : AudioState)
    (r : Bool) (st' : AudioState) (evs : List Ev)
    (hdev : st.deviceActive = true)
    (h : addData fps speed startOk oracles data len st = some (r, st', evs)) :
    st'.deviceActive = true ∧ st'.size = st.size := by
  unfold addData at h
  rw [hdev] at h
  simp only [Bool.true_eq_false, if_false, Option.map_eq_some'] at h
  obtain ⟨a, ha, h2⟩ := h
  cases h2
  exact ⟨rfl, rfl⟩

/-- Total committed bytes add over trace concatenation. -/
theorem totalCommitted_append (a b : List Ev) :
    totalCommitted (a ++ b) = totalCommitted a + totalCommitted b := by
  induction a with
  | nil => simp [totalCommitted]
  | cons x rest ih =>
    cases x <;> simp [totalCommitted, ih, Nat.add_assoc]

/-- Length of a non-wrapping span write. -/
theorem writeSpan_length (buf d : List Byte) (off : Nat)
    (h : off + d.length ≤ buf.length) :
    (writeSpan buf off d).length = buf.length := by
  unfold writeSpan
  simp only [List.length_append, List.length_take, List.length_drop]
  omega

/-- Pointwise description of a non-wrapping span write. -/
theorem writeSpan_getElem? (buf d : List Byte) (off p : Nat)
    (h : off + d.length ≤ buf.length) :
    (writeSpan buf off d)[p]?
      = if p < off then buf[p]?
        else if p < off + d.length then d[p - off]?
        else buf[p]? := by
  have hoff : off ≤ buf.length := by omega
  have hlen : (List.take off buf ++ d).length = off + d.length := by
    simp only [List.length_append, List.length_take]
    omega
  unfold writeSpan
  rw [List.getElem?_append, hlen, List.getElem?_append, List.getElem?_take]
  simp only [List.length_take, Nat.min_eq_left hoff]
  by_cases h1 : p < off
  · simp [h1, show p < off + d.length by omega]
  · by_cases h2 : p < off + d.length
    · simp [h1, h2]
    · simp only [h1, h2, if_false, List.getElem?_drop]
      congr 1
      omega

/-- A circular write preserves the buffer length. -/
theorem circWrite_length (buf data : List Byte) (off : Nat) :
    (circWrite buf off data).length = buf.length := by
  unfold circWrite
  simp

/-- Pointwise description of a circular write. -/
theorem circWrite_getElem? (buf data : List Byte) (off p : Nat) (hp : p < buf.length) :
    (circWrite buf off data)[p]?
      = some (if (buf.length + p - off) % buf.length < data.length
              then data.getD ((buf.length + p - off) % buf.length) 0
              else buf.getD p 0) := by
  unfold circWrite
  rw [List.getElem?_map, List.getElem?_range hp]
  rfl

/-- Filling span 1 and then span 2 of a wrapped lock region produces the
same buffer as one conceptual contiguous circular write of the first
`d1 + d2` source bytes at the same offset. -/
theorem twoSpan_eq_circWrite (buf data : List Byte) (off d1 d2 : Nat)
    (hsz : 0 < buf.length) (hoff : off < buf.length)
    (hd1 : off + d1 ≤ buf.length)
    (hd2 : d2 = 0 ∨ (off + d1 = buf.length ∧ d2 ≤ off))
    (hdat : d1 + d2 ≤ data.length) :
    writeSpan (writeSpan buf off (data.take d1)) 0 ((data.drop d1).take d2)
      = circWrite buf off (data.take (d1 + d2)) := by
  have hl1 : (data.take d1).length = d1 := by
    simp only [List.length_take]
    omega
  have hl2 : ((data.drop d1).take d2).length = d2 := by
    simp only [List.length_take, List.length_drop]
    omega
  have hlc : (data.take (d1 + d2)).length = d1 + d2 := by
    simp only [List.length_take]
    omega
  have hw1len : (writeSpan buf off (data.take d1)).length = buf.length :=
    writeSpan_length buf (data.take d1) off (by rw [hl1]; exact hd1)
  have hw2len : (writeSpan (writeSpan buf off (data.take d1)) 0
      ((data.drop d1).take d2)).length = buf.length := by
    rw [writeSpan_length, hw1len]
    rw [hl2, hw1len]
    omega
  apply List.ext_getElem?
  intro p
  by_cases hp : p < buf.length
  swap
  · rw [List.getElem?_eq_none, List.getElem?_eq_none]
    · rw [circWrite_length]
      omega
    · rw [hw2len]
      omega
  · rw [circWrite_getElem? buf _ off p hp, hlc]
    rw [writeSpan_getElem? _ _ 0 p (by rw [hl2, hw1len]; omega)]
    simp only [Nat.not_lt_zero, if_false, Nat.zero_add, Nat.sub_zero, hl2]
    rw [writeSpan_getElem? _ _ off p (by rw [hl1]; exact hd1)]
    simp only [hl1]
    by_cases hA : p < d2
    · -- span 2: position p receives data[d1 + p]
      obtain ⟨hwrap, hd2off⟩ : off + d1 = buf.length ∧ d2 ≤ off := by
        rcases hd2 with h0 | h
        · omega
        · exact h
      rw [if_pos hA, List.getElem?_take, if_pos hA, List.getElem?_drop]
      have hj : (buf.length + p - off) % buf.length = d1 + p := by
        rw [Nat.mod_eq_of_lt (by omega)]
        omega
      rw [hj, if_pos (by omega)]
      rw [List.getD_eq_getElem?_getD, List.getElem?_take, if_pos (by omega : d1 + p < d1 + d2)]
      rw [List.getElem?_eq_getElem (by omega : d1 + p < data.length)]
      rfl
    · rw [if_neg hA]
      by_cases hB : p < off
      · -- between span 2 and span 1: unchanged
        rw [if_pos hB]
        have hj : (buf.length + p - off) % buf.length = buf.length + p - off :=
          Nat.mod_eq_of_lt (by omega)
        rw [hj, if_neg (by omega)]
        rw [List.getD_eq_getElem?_getD, List.getElem?_eq_getElem hp]
        rfl
      · have hj : (buf.length + p - off) % buf.length = p - off := by
          have he : buf.length + p - off = buf.length + (p - off) := by omega
          rw [he, Nat.add_mod_left, Nat.mod_eq_of_lt (by omega)]
        rw [if_neg hB, hj]
        by_cases hC : p < off + d1
        · -- span 1: position p receives data[p - off]
          rw [if_pos hC, if_pos (by omega), List.getElem?_take, if_pos (by omega)]
          rw [List.getD_eq_getElem?_getD, List.getElem?_take, if_pos (by omega : p - off < d1 + d2)]
          rw [List.getElem?_eq_getElem (by omega : p - off < data.length)]
          rfl
        · -- past the write region: unchanged
          rw [if_neg hC, if_neg (by omega)]
          rw [List.getD_eq_getElem?_getD, List.getElem?_eq_getElem hp]
          rfl

/-- Claim C1, counterexample: with an active device buffer, a call of
`AddData` with four bytes whose first cursor query fails commits zero
bytes and still returns `true` — refuting both "returns true iff all
`length` bytes were committed" and "a cursor-query failure aborting the
call returns false". -/
theorem addData_cursorFail_cex :
    addData 50 100 true [{ cursorOk := false, playCursor := 0, lockOk := true }]
        [1, 2, 3, 4] 4 exState
      = some (true, exState, [Ev.cursorFail])
    ∧ totalCommitted [Ev.cursorFail] ≠ 4 := by
  constructor
  · rfl
  · decide

/-- Claim C1, amended: every terminating `AddData` call with an active
device buffer returns `true` — even when a cursor-query failure aborts the
call before all bytes are written (the committed partial data is kept);
`false` is returned only in the no-device pacer mode. -/
theorem addData_active_true (fps speed : Nat) (startOk : Bool)
    (oracles : List IterOracle) (data : List Byte) (len : Int) (st : AudioState)
    (r : Bool) (st' : AudioState) (evs : List Ev)
    (hdev : st.deviceActive = true)
    (h : addData fps speed startOk oracles data len st = some (r, st', evs)) :
    r = true := by
  unfold addData at h
  rw [hdev] at h
  simp only [Bool.true_eq_false, if_false, Option.map_eq_some'] at h
  obtain ⟨a, ha, h2⟩ := h
  cases h2
  exact addDataLoop_isTrue st.size oracles data len st.buf st.writeOffset _ _ _ _ ha

/-- Witness for the amended claim C1 at a concrete input. -/
theorem addData_active_true_witness :
    exState.deviceActive = true ∧
      addData 50 100 true [{ cursorOk := false, playCursor := 0, lockOk := true }]
        [9, 9] 2 exState = some (true, exState, [Ev.cursorFail]) ∧
      true = true :=
  ⟨rfl, rfl, addData_active_true 50 100 true
    [{ cursorOk := false, playCursor := 0, lockOk := true }] [9, 9] 2 exState true exState
    [Ev.cursorFail] rfl rfl⟩

/-- Claim C2: for every sequence of `AddData` calls with an active device
buffer, the write offset after N total committed bytes equals
(initialOffset + N) mod bufferSize, and no iteration ever commits more
than the available space `(bufferSize + playCursor - writeOffset) mod
bufferSize` it computed, so a write never advances past the play cursor. -/
theorem addDataSeq_invariant (fps speed : Nat) (startOk : Bool) (calls : List CallInput) :
    ∀ (st st' : AudioState) (evs : List Ev),
      st.deviceActive = true → 0 < st.size → st.writeOffset < st.size →
      addDataSeq fps speed startOk calls st = some (st', evs) →
      st'.writeOffset = (st.writeOffset + totalCommitted evs) % st.size
      ∧ ∀ sp n, Ev.committed sp n ∈ evs → n ≤ sp := by
  induction calls with
  | nil =>
    intro st st' evs hdev hsz hoff h
    simp only [addDataSeq] at h
    cases h
    exact ⟨by simp [totalCommitted, Nat.mod_eq_of_lt hoff], by simp⟩
  | cons c rest ih =>
    intro st st' evs hdev hsz hoff h
    simp only [addDataSeq] at h
    cases h1 : addData fps speed startOk c.oracles c.data c.len st with
    | none => rw [h1] at h; cases h
    | some v =>
      rw [h1] at h
      obtain ⟨r1, st1, evs1⟩ := v
      dsimp only at h
      cases h2 : addDataSeq fps speed startOk rest st1 with
      | none => rw [h2] at h; cases h
      | some w =>
        rw [h2] at h
        obtain ⟨st2, evs2⟩ := w
        dsimp only at h
        cases h
        obtain ⟨hdev1, hsize1⟩ := addData_active_state fps speed startOk
          c.oracles c.data c.len st r1 st1 evs1 hdev h1
        obtain ⟨hoff1, hbound1⟩ := addData_circular_invariant fps speed startOk
          c.oracles c.data c.len st r1 st1 evs1 hdev hsz hoff h1
        have hoff1lt : st1.writeOffset < st1.size := by
          rw [hoff1, hsize1]
          exact Nat.mod_lt _ hsz
        obtain ⟨hoff2, hbound2⟩ := ih st1 st' evs2 hdev1 (by omega) hoff1lt h2
        constructor
        · rw [hoff2, hsize1, hoff1, Nat.mod_add_mod, totalCommitted_append,
            Nat.add_assoc]
        · intro sp n hmem
          rcases List.mem_append.mp hmem with hm | hm
          · exact hbound1 sp n hm
          · exact hbound2 sp n hm

/-- Witness for claim C2 at a concrete one-call sequence. -/
theorem addDataSeq_invariant_witness :
    exState.deviceActive = true ∧ 0 < exState.size ∧ exState.writeOffset < exState.size ∧
      addDataSeq 50 100 true
          [{ oracles := [{ cursorOk := true, playCursor := 3, lockOk := true }],
             data := [1, 2, 3], len := 3 }] exState
        = some (exState2, [Ev.committed 3 3]) ∧
      (exState2.writeOffset
          = (exState.writeOffset + totalCommitted [Ev.committed 3 3]) % exState.size
        ∧ ∀ sp n, Ev.committed sp n ∈ [Ev.committed 3 3] → n ≤ sp) :=
  ⟨rfl, by decide, by decide, rfl,
    addDataSeq_invariant 50 100 true
      [{ oracles := [{ cursorOk := true, playCursor := 3, lockOk := true }],
         data := [1, 2, 3], len := 3 }] exState exState2 [Ev.committed 3 3]
      rfl (by decide) (by decide) rfl⟩

/-- Claim C3, counterexample: at speedPercent = 1 (with framesPerSecond =
50) the divisor `50 * 1 / 100` is 0 in integer arithmetic, so the interval
computation divides by zero rather than flooring to 1 — the claim's "well
defined for every speedPercent ≥ 1" and "interval 1 for speedPercent = 1"
are both false. -/
theorem pacerInterval_speed1_cex :
    50 * 1 / 100 = 0 ∧ pacerInterval 50 1 = none ∧ pacerInterval 50 1 ≠ some 1 := by
  refine ⟨rfl, rfl, ?_⟩
  decide

/-- Claim C3, amended: for every speedPercent ≥ 2 the interval is
`1000 / (50 * speedPercent / 100)` floored to a minimum of 1 ms (20 at
speed 100, 10 at speed 200; the floor case arises at large speeds such as
4000); at speedPercent = 1 the divisor is zero and the division is
undefined. -/
theorem pacerInterval_values (speed : Nat) (h : 2 ≤ speed) :
    pacerInterval 50 speed
      = some (if 1000 / (50 * speed / 100) = 0 then 1 else 1000 / (50 * speed / 100))
    ∧ pacerInterval 50 100 = some 20
    ∧ pacerInterval 50 200 = some 10
    ∧ pacerInterval 50 4000 = some 1 := by
  refine ⟨?_, rfl, rfl, rfl⟩
  have hd : 50 * speed / 100 ≠ 0 := by
    have h1 : 1 ≤ 50 * speed / 100 := (Nat.le_div_iff_mul_le (by norm_num)).mpr (by omega)
    omega
  unfold pacerInterval
  simp [hd]

/-- Witness for the amended claim C3 at speedPercent = 100. -/
theorem pacerInterval_values_witness :
    2 ≤ 100 ∧ pacerInterval 50 100
      = some (if 1000 / (50 * 100 / 100) = 0 then 1 else 1000 / (50 * 100 / 100)) :=
  ⟨by decide, (pacerInterval_values 100 (by decide)).1⟩

/-- Claim C4: with no active device buffer (and a well-defined tick
interval), every `AddData` call returns `false` after blocking on the
pacer's wait signal, and never touches the device buffer or the write
offset. -/
theorem addData_pacer_mode (fps speed : Nat) (startOk : Bool)
    (oracles : List IterOracle) (data : List Byte) (len : Int) (st : AudioState)
    (t : Nat) (hdev : st.deviceActive = false) (ht : pacerInterval fps speed = some t) :
    ∃ st' evs, addData fps speed startOk oracles data len st = some (false, st', evs)
      ∧ Ev.waited ∈ evs ∧ st'.buf = st.buf ∧ st'.writeOffset = st.writeOffset := by
  unfold addData
  rw [hdev, ht]
  simp only [if_pos rfl]
  by_cases hdt : t = st.dwTimer
  · rw [if_neg (not_not_intro hdt)]
    exact ⟨st, [Ev.waited], rfl, by simp, rfl, rfl⟩
  · rw [if_pos hdt]
    exact ⟨_, _, rfl, by simp, rfl, rfl⟩

/-- Witness for claim C4 at a concrete pacer-mode state. -/
theorem addData_pacer_mode_witness :
    exPacerState.deviceActive = false ∧ pacerInterval 50 100 = some 20 ∧
      ∃ st' evs, addData 50 100 true [] [] 0 exPacerState = some (false, st', evs)
        ∧ Ev.waited ∈ evs ∧ st'.buf = exPacerState.buf
        ∧ st'.writeOffset = exPacerState.writeOffset :=
  ⟨rfl, rfl, addData_pacer_mode 50 100 true [] [] 0 exPacerState 20 rfl rfl⟩

/-- Claim C5: filling the two spans of a wrapped lock region in order,
each span bounded by both its length and the remaining input length,
writes exactly the committed prefix of the source bytes — identical to a
single conceptual contiguous circular write of that prefix at the same
offset. -/
theorem lockAndFill_circWrite (size : Nat) (buf : List Byte) (off space : Nat)
    (data : List Byte) (len : Int)
    (hbuf : buf.length = size) (hsz : 0 < size) (hoff : off < size)
    (hspace : space ≤ size) (hdata : len.toNat ≤ data.length) :
    (lockAndFill size buf off space data len).1
      = circWrite buf off
          (data.take ((lockAndFill size buf off space data len).2.1
            + (lockAndFill size buf off space data len).2.2)) := by
  unfold lockAndFill
  dsimp only
  apply twoSpan_eq_circWrite <;> omega

/-- Witness for claim C5 at a concrete wrapping write (offset 6 of an
8-byte buffer, 5 bytes requested: span 1 holds 2 bytes, span 2 wraps with
3 bytes). -/
theorem lockAndFill_circWrite_witness :
    ([10, 11, 12, 13, 14, 15, 16, 17] : List Byte).length = 8 ∧ 0 < 8 ∧ 6 < 8 ∧ 5 ≤ 8 ∧
      (5 : Int).toNat ≤ ([1, 2, 3, 4, 5] : List Byte).length ∧
      (lockAndFill 8 [10, 11, 12, 13, 14, 15, 16, 17] 6 5 [1, 2, 3, 4, 5] 5).1
        = circWrite [10, 11, 12, 13, 14, 15, 16, 17] 6
            (List.take ((lockAndFill 8 [10, 11, 12, 13, 14, 15, 16, 17] 6 5 [1, 2, 3, 4, 5] 5).2.1
              + (lockAndFill 8 [10, 11, 12, 13, 14, 15, 16, 17] 6 5 [1, 2, 3, 4, 5] 5).2.2)
              [1, 2, 3, 4, 5]) :=
  ⟨rfl, by decide, by decide, by decide, by decide,
    lockAndFill_circWrite 8 [10, 11, 12, 13, 14, 15, 16, 17] 6 5 [1, 2, 3, 4, 5] 5
      rfl (by decide) (by decide) (by decide) (by decide)⟩

/-- Claim C6: a `Silence` call with an active device buffer whose
entire-buffer lock is granted zero-fills the whole buffer (length equal to
the buffer size) and sets the write offset to the play cursor sampled at
that moment; with no active device buffer, `Silence` is a no-op. -/
theorem silence_zeroFill_resync (o : SilenceOracle) (st : AudioState) :
    (st.deviceActive = true → o.lockOk = true →
      (silence o st).buf = List.replicate st.size 0 ∧
      (silence o st).writeOffset = o.playCursor) ∧
    (st.deviceActive = false → silence o st = st) := by
  constructor
  · intro hdev hlock
    unfold silence
    simp [hdev, hlock]
  · intro hdev
    unfold silence
    simp [hdev]

/-- Witness for claim C6 at a concrete state and lock success. -/
theorem silence_zeroFill_resync_witness :
    exState.deviceActive = true ∧ (SilenceOracle.mk true 5).lockOk = true ∧
      (silence (SilenceOracle.mk true 5) exState).buf = List.replicate exState.size 0 ∧
      (silence (SilenceOracle.mk true 5) exState).writeOffset = 5 :=
  ⟨rfl, rfl, (silence_zeroFill_resync (SilenceOracle.mk true 5) exState).1 rfl rfl⟩

/-- Claim C7: with bufferSize 1000, writeOffset 900 and playCursor 950,
an `AddData` call of length 200 computes available space
(1000 + 950 - 900) mod 1000 = 50 in its first iteration, commits exactly
those 50 bytes, backs off (`Sleep(2)`), and retries for the remaining 150
bytes in the next iteration rather than committing more at once. -/
theorem addData_partial_space :
    (addData 50 100 true
        [{ cursorOk := true, playCursor := 950, lockOk := true },
         { cursorOk := true, playCursor := 200, lockOk := true }]
        (List.replicate 200 7) 200 st7).map
      (fun r => (r.1, r.2.1.writeOffset, r.2.2))
    = some (true, 100, [Ev.committed 50 50, Ev.slept, Ev.committed 250 150]) := by
  rfl

/-- Claim C8: when starting the periodic timer fails, `dwTimer` has
already been updated to the newly computed interval (the assignment is
inside the `timeSetEvent` argument list), so every subsequent `AddData`
call computing the same interval makes no further start attempt (its trace
is just the wait) and blocks on the wait signal with no timer driving it. -/
theorem pacer_timerFail_no_retry (fps speed : Nat)
    (oracles : List IterOracle) (data : List Byte) (len : Int) (st : AudioState)
    (t : Nat) (hdev : st.deviceActive = false) (ht : pacerInterval fps speed = some t)
    (hdiff : t ≠ st.dwTimer) :
    ∃ st', addData fps speed false oracles data len st
        = some (false, st',
            (if st.hTimer then [Ev.killTimer] else []) ++ [Ev.startTimer t false, Ev.waited])
      ∧ st'.dwTimer = t ∧ st'.hTimer = false
      ∧ ∀ (startOk2 : Bool) (oracles2 : List IterOracle) (data2 : List Byte) (len2 : Int),
          addData fps speed startOk2 oracles2 data2 len2 st'
            = some (false, st', [Ev.waited]) := by
  refine ⟨{ st with dwTimer := t, hTimer := false }, ?_, rfl, rfl, ?_⟩
  · unfold addData
    rw [hdev, ht]
    simp [hdiff]
  · intro startOk2 oracles2 data2 len2
    unfold addData
    rw [show ({ st with dwTimer := t, hTimer := false } : AudioState).deviceActive = false
      from hdev, ht]
    simp

/-- Witness for claim C8 at a concrete pacer-mode state. -/
theorem pacer_timerFail_no_retry_witness :
    exPacerState.deviceActive = false ∧ pacerInterval 50 100 = some 20
      ∧ 20 ≠ exPacerState.dwTimer ∧
      ∃ st', addData 50 100 false [] [] 0 exPacerState
          = some (false, st', [Ev.startTimer 20 false, Ev.waited])
        ∧ st'.dwTimer = 20 ∧ st'.hTimer = false
        ∧ ∀ (startOk2 : Bool) (oracles2 : List IterOracle) (data2 : List Byte) (len2 : Int),
            addData 50 100 startOk2 oracles2 data2 len2 st'
              = some (false, st', [Ev.waited]) :=
  ⟨rfl, rfl, by decide,
    pacer_timerFail_no_retry 50 100 [] [] 0 exPacerState 20 rfl rfl (by decide)⟩

/-- Claim C9: an `AddData` call with an active device buffer and a
non-positive length returns `true` immediately, performs no device
operation (empty trace), and leaves the module state unchanged. -/
theorem addData_len_nonpos (fps speed : Nat) (startOk : Bool)
    (oracles : List IterOracle) (data : List Byte) (len : Int) (st : AudioState)
    (hdev : st.deviceActive = true) (hlen : len ≤ 0) :
    addData fps speed startOk oracles data len st = some (true, st, []) := by
  cases st with
  | mk d sz b off dt ht =>
    cases hdev
    unfold addData
    cases oracles <;> simp [addDataLoop, hlen]

/-- Witness for claim C9 at length 0. -/
theorem addData_len_nonpos_witness :
    exState.deviceActive = true ∧ (0 : Int) ≤ 0 ∧
      addData 50 100 true [] [] 0 exState = some (true, exState, []) :=
  ⟨rfl, by decide, addData_len_nonpos 50 100 true [] [] 0 exState rfl (by decide)⟩

/-- Claim C10: `Silence` with an active device buffer resets the write
offset to the sampled play cursor even when the entire-buffer lock fails,
in which case the zero-fill is skipped and the buffer contents are
untouched. -/
theorem silence_lockFail_resync (o : SilenceOracle) (st : AudioState)
    (hdev : st.deviceActive = true) (hlock : o.lockOk = false) :
    (silence o st).writeOffset = o.playCursor ∧ (silence o st).buf = st.buf := by
  unfold silence
  simp [hdev, hlock]

/-- Witness for claim C10 at a concrete state and lock failure. -/
theorem silence_lockFail_resync_witness :
    exState.deviceActive = true ∧ (SilenceOracle.mk false 5).lockOk = false ∧
      (silence (SilenceOracle.mk false 5) exState).writeOffset = 5 ∧
      (silence (SilenceOracle.mk false 5) exState).buf = exState.buf :=
  ⟨rfl, rfl, silence_lockFail_resync (SilenceOracle.mk false 5) exState rfl rfl⟩
